import Mathlib

/-!
Shallow embedding of the MIYABI engine host (C++ core) for checking its
natural-language specification. Definitions are translated from the
source files under `core/`:

* `main.cpp` — host startup ABI gate, per-frame asset-command drain,
  `processInput` mouse edge detection;
* `physics/PhysicsManager.{hpp,cpp}` — body registry, collision events;
* `miyabi_bridge.cpp` — audio guard, fullscreen request flags;
* `renderer/TextureManager.cpp` — texture id maps.

External libraries (GLFW, OpenGL, box2d, miniaudio, stb_image) are
modelled as oracles: their results are parameters of the embedded
functions, while the host's own control flow and state updates are
translated statement by statement.
-/

namespace Miyabi

/-! ## ABI version (core/include/miyabi/miyabi.h) -/

/-- `MIYABI_ABI_VERSION_MAJOR` (miyabi.h line 10). -/
def MIYABI_ABI_VERSION_MAJOR : Nat := 1

/-- `MIYABI_ABI_VERSION_MINOR` (miyabi.h line 11). -/
def MIYABI_ABI_VERSION_MINOR : Nat := 0

/-- `MIYABI_ABI_VERSION_PATCH` (miyabi.h line 12). -/
def MIYABI_ABI_VERSION_PATCH : Nat := 0

/-- `MIYABI_ABI_VERSION_ENCODE(major, minor, patch)` (miyabi.h lines 13-14):
`(((uint32_t)(major) << 16) | ((uint32_t)(minor) << 8) | (uint32_t)(patch))`,
computed in `uint32_t`. -/
def MIYABI_ABI_VERSION_ENCODE (major minor patch : Nat) : Nat :=
  (((major % 2 ^ 32) <<< 16) % 2 ^ 32 ||| ((minor % 2 ^ 32) <<< 8) % 2 ^ 32 ||| patch % 2 ^ 32) % 2 ^ 32

/-- `MIYABI_ABI_VERSION` (miyabi.h lines 15-16). -/
def MIYABI_ABI_VERSION : Nat :=
  MIYABI_ABI_VERSION_ENCODE MIYABI_ABI_VERSION_MAJOR MIYABI_ABI_VERSION_MINOR MIYABI_ABI_VERSION_PATCH

/-- The major component recoverable from an encoded ABI version value:
the bits above bit 16 (every encoded value with in-range minor/patch
components stores the major component there). -/
def abi_major (v : Nat) : Nat := v >>> 16

/-- Entry points of `MiyabiVTable` other than the `abi_version` field
(miyabi.h lines 55-72). -/
inductive VTableEntry
  | create_game
  | destroy_game
  | serialize_game
  | deserialize_game
  | free_serialized_string
  | update_game
  | get_renderables
  | get_asset_commands
  | clear_asset_commands
  | notify_asset_loaded
  | update_input_state
  | get_asset_command_path_cstring
  | get_text_commands
  | get_text_command_text_cstring
  | free_cstring
  deriving DecidableEq, Repr

/-- Outcome of host startup: an exit code if `main` returned during
startup, and the vtable entry points invoked. -/
structure StartupOutcome where
  exit_code : Option Int
  vtable_calls : List VTableEntry
  deriving DecidableEq, Repr

/-- The ABI gate at the top of `main` (main.cpp lines 72-82): after
`get_miyabi_vtable` the host compares `g_vtable.abi_version` with
`MIYABI_ABI_VERSION` and returns `-1` on mismatch, before any entry
point of the table is used. `rest` abstracts the remainder of `main`
(window setup, frame loop, shutdown) that runs only when the check
passes. -/
def hostStartup (abi_version : Nat) (rest : StartupOutcome) : StartupOutcome :=
  if abi_version ≠ MIYABI_ABI_VERSION then ⟨some (-1), []⟩ else rest

/-! ## Input edge detection (main.cpp `processInput`, lines 386-417) -/

/-- Result of `glfwGetMouseButton` as the source branches on it:
`GLFW_PRESS`, `GLFW_RELEASE`, or any other value (final `else`). -/
inductive MouseButton
  | press
  | release
  | other
  deriving DecidableEq, Repr

/-- The mouse portion of the host input snapshot together with the
global `g_mouse_released` flag (main.cpp line 52) after one
`processInput` call. -/
structure MouseClickResult where
  mouse_clicked : Bool
  g_mouse_released : Bool
  deriving DecidableEq, Repr

/-- The mouse-click state machine of `processInput` (main.cpp lines
403-416): on `GLFW_PRESS` clear the edge flag and remember the button
is down; on `GLFW_RELEASE` raise the edge flag exactly when the button
was previously down; otherwise clear the edge flag. -/
def processInputMouse (g_mouse_released : Bool) (button : MouseButton) : MouseClickResult :=
  match button with
  | .press => { mouse_clicked := false, g_mouse_released := false }
  | .release =>
      if !g_mouse_released then
        { mouse_clicked := true, g_mouse_released := true }
      else
        { mouse_clicked := false, g_mouse_released := g_mouse_released }
  | .other => { mouse_clicked := false, g_mouse_released := g_mouse_released }

/-! ## Fullscreen request flags (miyabi_bridge.cpp) -/

/-- The two atomics backing the fullscreen request channel
(miyabi_bridge.cpp lines 25-26); both are `false` at program start. -/
structure FullscreenState where
  g_pending_fullscreen : Bool
  g_requested_fullscreen : Bool
  deriving DecidableEq, Repr

/-- `request_fullscreen` (miyabi_bridge.cpp lines 109-112): store the
requested value, then set the pending flag. -/
def request_fullscreen (enabled : Bool) (_s : FullscreenState) : FullscreenState :=
  { g_pending_fullscreen := true, g_requested_fullscreen := enabled }

/-- `has_pending_fullscreen_request` (miyabi_bridge.cpp lines 185-187). -/
def has_pending_fullscreen_request (s : FullscreenState) : Bool :=
  s.g_pending_fullscreen

/-- `consume_pending_fullscreen_request` (miyabi_bridge.cpp lines
189-192): clear the pending flag and return the stored request value. -/
def consume_pending_fullscreen_request (s : FullscreenState) : Bool × FullscreenState :=
  (s.g_requested_fullscreen, { s with g_pending_fullscreen := false })

/-- Calls the host or module may make on the fullscreen channel. -/
inductive FsOp
  | request (enabled : Bool)
  | consume
  | query
  deriving DecidableEq, Repr

/-- Applies one fullscreen-channel call to the flag state (query and
the returned booleans do not change state beyond what the call does). -/
def fsStep (s : FullscreenState) : FsOp → FullscreenState
  | .request v => request_fullscreen v s
  | .consume => (consume_pending_fullscreen_request s).2
  | .query => s

/-- Runs a sequence of fullscreen-channel calls. -/
def runFsOps (s : FullscreenState) : List FsOp → FullscreenState
  | [] => s
  | op :: rest => runFsOps (fsStep s op) rest

/-! ## Physics body registry (physics/PhysicsManager.{hpp,cpp})

Box2d (`b2World`) is the external simulation library. Its observable
interactions with the host are modelled as oracles: `b2World::Step`
reports a list of begin-contact pairs (each pair carrying the two
bodies' user-data pointers, exactly what `MyContactListener` reads) and
may move every body (a position-update function). Host-side state —
the id map, the event buffer, the id counter — is translated field by
field from `PhysicsManager`. -/

/-- The `Vec2` POD crossing the bridge; coordinates are modelled as
rationals in place of C `float`. -/
structure Vec2 where
  x : Rat
  y : Rat
  deriving DecidableEq, Repr

/-- `CollisionEvent` with two `BodyId` (`uint64_t`) fields. -/
structure CollisionEvent where
  body_a : Nat
  body_b : Nat
  deriving DecidableEq, Repr

/-- The host-visible state of one `b2Body`: the user-data pointer tag
the host wrote (`body->GetUserData().pointer`) and its current
position (`body->GetPosition()`). -/
structure B2Body where
  user_data_pointer : Nat
  position : Vec2
  deriving DecidableEq, Repr

/-- `PhysicsManager` state (PhysicsManager.hpp lines 43-48):
`m_world` is whether `init()` has run (the `unique_ptr` is non-null),
`m_bodies` is the id-to-body map as an association list in insertion
order, `m_collision_events` the event buffer the contact listener
appends to, `m_next_body_id` the `uint64_t` id counter starting at 1
(kept below 2^64; the creates wrap it on increment). -/
structure PhysicsManager where
  m_world : Bool
  m_bodies : List (Nat × B2Body)
  m_collision_events : List CollisionEvent
  m_next_body_id : Nat
  deriving Repr

/-- A freshly constructed `PhysicsManager` (constructor plus the
member initializers in the header): no world, empty maps,
`m_next_body_id = 1`. -/
def PhysicsManager.new : PhysicsManager :=
  { m_world := false, m_bodies := [], m_collision_events := [], m_next_body_id := 1 }

/-- `PhysicsManager::init` (PhysicsManager.cpp lines 39-47): create the
world and register the contact listener over `m_collision_events`. -/
def PhysicsManager.init (pm : PhysicsManager) : PhysicsManager :=
  { pm with m_world := true }

/-- `MyContactListener::BeginContact` (PhysicsManager.cpp lines 12-27)
for one contact, given the two bodies' user-data pointers: append an
event only when both pointers are non-zero. -/
def beginContact (events : List CollisionEvent) (body_a_id_ptr body_b_id_ptr : Nat) :
    List CollisionEvent :=
  if body_a_id_ptr ≠ 0 ∧ body_b_id_ptr ≠ 0 then
    events ++ [{ body_a := body_a_id_ptr, body_b := body_b_id_ptr }]
  else
    events

/-- The effect of `b2World::Step` as the host observes it: the contact
listener is invoked once per begin contact in order, and body positions
are advanced by the simulation (`posUpdate`, an oracle for the solver). -/
def worldStep (pm : PhysicsManager) (contacts : List (Nat × Nat))
    (posUpdate : Nat → Vec2 → Vec2) : PhysicsManager :=
  { pm with
    m_collision_events :=
      contacts.foldl (fun es c => beginContact es c.1 c.2) pm.m_collision_events,
    m_bodies :=
      pm.m_bodies.map fun b =>
        (b.1, { user_data_pointer := b.2.user_data_pointer,
                position := posUpdate b.1 b.2.position }) }

/-- `PhysicsManager::step` (PhysicsManager.cpp lines 49-57): return
immediately when there is no world; otherwise clear the event buffer
from the previous step, then run `b2World::Step` (fixed timestep,
fixed iteration counts — the oracle parameters carry this step's
contacts and solver movement). -/
def PhysicsManager.step (pm : PhysicsManager) (contacts : List (Nat × Nat))
    (posUpdate : Nat → Vec2 → Vec2) : PhysicsManager :=
  if !pm.m_world then pm
  else worldStep { pm with m_collision_events := [] } contacts posUpdate

/-- `PhysicsManager::create_dynamic_box` (PhysicsManager.cpp lines
59-81): return 0 when there is no world; otherwise create a body at
(x, y), take the next id, record it in `m_bodies`, tag the body's
user-data pointer with the id, and return the id. `m_next_body_id++`
is a `uint64_t` post-increment, so the counter wraps mod 2^64. -/
def PhysicsManager.create_dynamic_box (pm : PhysicsManager) (x y _width _height : Rat) :
    Nat × PhysicsManager :=
  if !pm.m_world then (0, pm)
  else
    let id := pm.m_next_body_id
    let body : B2Body := { user_data_pointer := id, position := { x := x, y := y } }
    (id, { pm with
            m_bodies := pm.m_bodies ++ [(id, body)],
            m_next_body_id := (id + 1) % 2 ^ 64 })

/-- `PhysicsManager::create_static_box` (PhysicsManager.cpp lines
83-99): identical host-visible bookkeeping to the dynamic case (the
difference is the box2d body/fixture definition), including the
`uint64_t` counter wrap mod 2^64. -/
def PhysicsManager.create_static_box (pm : PhysicsManager) (x y _width _height : Rat) :
    Nat × PhysicsManager :=
  if !pm.m_world then (0, pm)
  else
    let id := pm.m_next_body_id
    let body : B2Body := { user_data_pointer := id, position := { x := x, y := y } }
    (id, { pm with
            m_bodies := pm.m_bodies ++ [(id, body)],
            m_next_body_id := (id + 1) % 2 ^ 64 })

/-- `PhysicsManager::get_body_position` (PhysicsManager.cpp lines
101-110): the stored body's current position when `m_bodies` contains
the id, the sentinel `(-1, -1)` otherwise. -/
def PhysicsManager.get_body_position (pm : PhysicsManager) (id : Nat) : Vec2 :=
  match pm.m_bodies.lookup id with
  | some body => body.position
  | none => { x := -1, y := -1 }

/-- One call into the physics registry that can change its state. -/
inductive PhysOp
  | init
  | step (contacts : List (Nat × Nat)) (posUpdate : Nat → Vec2 → Vec2)
  | create_dynamic_box (x y width height : Rat)
  | create_static_box (x y width height : Rat)

/-- Applies one registry call to the manager state. -/
def physStep (pm : PhysicsManager) : PhysOp → PhysicsManager
  | .init => pm.init
  | .step contacts posUpdate => pm.step contacts posUpdate
  | .create_dynamic_box x y w h => (pm.create_dynamic_box x y w h).2
  | .create_static_box x y w h => (pm.create_static_box x y w h).2

/-- Runs a sequence of registry calls from a given state. -/
def runPhysOps (pm : PhysicsManager) : List PhysOp → PhysicsManager
  | [] => pm
  | op :: rest => runPhysOps (physStep pm op) rest

/-- The subsequence of create calls of an op list, in order. -/
def createOps : List PhysOp → List PhysOp
  | [] => []
  | op :: rest =>
      match op with
      | .create_dynamic_box _ _ _ _ => op :: createOps rest
      | .create_static_box _ _ _ _ => op :: createOps rest
      | _ => createOps rest

/-- The ids returned by a sequence of create calls run from `pm`
(each create returns its id and the state threads through). -/
def createdIds (pm : PhysicsManager) : List PhysOp → List Nat
  | [] => []
  | op :: rest =>
      match op with
      | .create_dynamic_box x y w h =>
          let r := pm.create_dynamic_box x y w h
          r.1 :: createdIds r.2 rest
      | .create_static_box x y w h =>
          let r := pm.create_static_box x y w h
          r.1 :: createdIds r.2 rest
      | _ => createdIds (physStep pm op) rest

/-! ## Audio engine guard (miyabi_bridge.cpp)

Miniaudio is external; the host's calls into it are recorded as an
effect trace, and the fallible calls (`ma_sound_init_from_file`,
`ma_sound_start`) take their results as oracle parameters. The
readiness flags and the BGM slot are the host's own state. -/

/-- The two mixing groups owned by the bridge (`g_bgm_group`,
`g_se_group`); `none` in an effect stands for the `NULL` group
pointer, i.e. the engine's default routing. -/
inductive MixGroup
  | bgm
  | se
  deriving DecidableEq, Repr

/-- Calls the bridge makes into the miniaudio engine. -/
inductive AudioEffect
  | engine_play_sound (path : String) (group : Option MixGroup)
  | sound_stop_bgm
  | sound_uninit_bgm
  | sound_init_from_file (path : String) (group : Option MixGroup)
  | sound_set_looping (looped : Bool)
  | sound_start_bgm
  deriving DecidableEq, Repr

/-- The atomic readiness flags of the audio subsystem
(miyabi_bridge.cpp lines 21-24); all `false` at program start, set by
`init_engine_systems` as each init call succeeds. -/
structure AudioState where
  g_audio_ready : Bool
  g_bgm_group_ready : Bool
  g_se_group_ready : Bool
  g_bgm_sound_ready : Bool
  deriving DecidableEq, Repr

/-- `play_sound` (miyabi_bridge.cpp lines 33-40): return immediately
when the engine is not ready; otherwise play through the SE group if
it is ready, else through the engine default (`NULL` group). -/
def play_sound (st : AudioState) (path : String) : AudioState × List AudioEffect :=
  if !st.g_audio_ready then (st, [])
  else
    (st, [.engine_play_sound path (if st.g_se_group_ready then some .se else none)])

/-- `play_bgm` (miyabi_bridge.cpp lines 42-78): return immediately when
the engine is not ready; otherwise, under the BGM mutex, stop and
uninit any current track, then init the new one from file (through the
BGM group if ready, else the engine default), set looping and start
it. `init_ok` and `start_ok` are the oracle results of
`ma_sound_init_from_file` and `ma_sound_start`. -/
def play_bgm (st : AudioState) (path : String) (looped : Bool) (init_ok start_ok : Bool) :
    AudioState × List AudioEffect :=
  if !st.g_audio_ready then (st, [])
  else
    let stopped :=
      if st.g_bgm_sound_ready then
        ({ st with g_bgm_sound_ready := false }, [AudioEffect.sound_stop_bgm, AudioEffect.sound_uninit_bgm])
      else (st, [])
    let st1 := stopped.1
    let pre := stopped.2
    let group := if st1.g_bgm_group_ready then some MixGroup.bgm else none
    if !init_ok then
      (st1, pre ++ [.sound_init_from_file path group])
    else if !start_ok then
      (st1, pre ++ [.sound_init_from_file path group, .sound_set_looping looped,
                    .sound_start_bgm, .sound_uninit_bgm])
    else
      ({ st1 with g_bgm_sound_ready := true },
       pre ++ [.sound_init_from_file path group, .sound_set_looping looped, .sound_start_bgm])

/-! ## Texture manager (renderer/TextureManager.cpp)

OpenGL and stb_image are external: `glGenTextures` returns a GL id (0
on failure, as the source checks), and `upload_texture_to_gl` succeeds
or fails (file unreadable, unsupported channel count). Both results
are oracle parameters; the id maps and the id counter are the
manager's own state. -/

/-- The oracle results of the GL/stb calls one `load_texture` or
`reload_texture` invocation can make: the id `glGenTextures` hands
out, and whether `upload_texture_to_gl` succeeds for this path. -/
structure GlOracle where
  gen_gl_id : Nat
  upload_ok : Bool
  deriving DecidableEq, Repr

/-- `TextureManager` state (TextureManager.hpp): the path-to-id and
id-to-GL-id maps as association lists, and the id counter, initialized
to 1 by the constructor (TextureManager.cpp line 8). -/
structure TextureManager where
  m_path_to_texture_id : List (String × Nat)
  m_texture_id_to_gl_id : List (Nat × Nat)
  m_next_texture_id : Nat
  deriving DecidableEq, Repr

/-- A freshly constructed `TextureManager`. -/
def TextureManager.new : TextureManager :=
  { m_path_to_texture_id := [], m_texture_id_to_gl_id := [], m_next_texture_id := 1 }

/-- `TextureManager::load_texture` (TextureManager.cpp lines 56-81):
return the existing id when the path is already mapped; otherwise
generate a GL texture (0 means failure), upload the image (failure
deletes the GL texture and returns 0 with no map change), and on
success consume the next id and record it in both maps. -/
def TextureManager.load_texture (tm : TextureManager) (path : String) (gl : GlOracle) :
    Nat × TextureManager :=
  match tm.m_path_to_texture_id.lookup path with
  | some existing => (existing, tm)
  | none =>
      if gl.gen_gl_id = 0 then (0, tm)
      else if !gl.upload_ok then (0, tm)
      else
        let texture_id := tm.m_next_texture_id
        (texture_id,
         { m_path_to_texture_id := tm.m_path_to_texture_id ++ [(path, texture_id)],
           m_texture_id_to_gl_id := tm.m_texture_id_to_gl_id ++ [(texture_id, gl.gen_gl_id)],
           m_next_texture_id := (texture_id + 1) % 2 ^ 32 })

/-- `TextureManager::reload_texture` (TextureManager.cpp lines 83-102):
fall back to `load_texture` when the path (or its GL id) is unknown;
otherwise re-upload into the existing GL texture and return the
existing id whether or not the upload succeeds (the maps never
change on this branch). -/
def TextureManager.reload_texture (tm : TextureManager) (path : String) (gl : GlOracle) :
    Nat × TextureManager :=
  match tm.m_path_to_texture_id.lookup path with
  | none => tm.load_texture path gl
  | some texture_id =>
      match tm.m_texture_id_to_gl_id.lookup texture_id with
      | none => tm.load_texture path gl
      | some _gl_id =>
          if !gl.upload_ok then (texture_id, tm)
          else (texture_id, tm)

/-! ## Per-frame asset-command drain (main.cpp lines 236-296)

Each frame the host calls `update_game`, drains the asset-command
slice — dispatching each command to the texture manager and notifying
the module with that command's `request_id` — and clears the slice
when it was non-empty. The host-observable boundary calls are
recorded as a trace. -/

/-- `AssetCommandType` as `main.cpp` branches on it: the two recognized
discriminants, or any other underlying value (the `default:` case). -/
inductive AssetCommandType
  | LoadTexture
  | ReloadTexture
  | UnknownKind (tag : Nat)
  deriving DecidableEq, Repr

/-- An `AssetCommand` as the host reads it: the kind tag, the
`request_id`, and the path extracted via
`get_asset_command_path_cstring`. -/
structure AssetCommand where
  type_ : AssetCommandType
  request_id : Nat
  path : String
  deriving DecidableEq, Repr

/-- Boundary calls and log lines the host emits while running frames. -/
inductive HostCall
  | update_game
  | notify_asset_loaded (request_id : Nat) (asset_id : Nat)
  | clear_asset_commands
  | log_unknown_asset_command (request_id : Nat)
  deriving DecidableEq, Repr

/-- The `switch (command.type_)` body of the drain loop (main.cpp
lines 274-290): `loaded_texture_id` starts at 0, recognized kinds
dispatch to the texture manager, the `default:` case logs a warning
and leaves 0. Returns the id passed to `notify_asset_loaded`, the
updated texture manager, and whether the warning was logged. -/
def dispatchAssetCommand (tm : TextureManager) (c : AssetCommand) (gl : GlOracle) :
    Nat × TextureManager × Bool :=
  match c.type_ with
  | .LoadTexture =>
      let r := tm.load_texture c.path gl
      (r.1, r.2, false)
  | .ReloadTexture =>
      let r := tm.reload_texture c.path gl
      (r.1, r.2, false)
  | .UnknownKind _ => (0, tm, true)

/-- The drain loop over one frame's asset-command slice (main.cpp
lines 269-292): for each command in order, dispatch it and call
`notify_asset_loaded(request_id, loaded_texture_id)`. The oracle
gives the GL results for each path. -/
def processAssetCommands (tm : TextureManager) (cmds : List AssetCommand)
    (oracle : String → GlOracle) : TextureManager × List HostCall :=
  match cmds with
  | [] => (tm, [])
  | c :: rest =>
      let d := dispatchAssetCommand tm c (oracle c.path)
      let r := processAssetCommands d.2.1 rest oracle
      (r.1,
       (if d.2.2 then [HostCall.log_unknown_asset_command c.request_id] else []) ++
         HostCall.notify_asset_loaded c.request_id d.1 :: r.2)

/-- The full asset phase of one frame (main.cpp lines 266-296): the
drain loop followed by `clear_asset_commands`, the latter only when
the slice was non-empty. -/
def frameAssetPhase (tm : TextureManager) (cmds : List AssetCommand)
    (oracle : String → GlOracle) : TextureManager × List HostCall :=
  let r := processAssetCommands tm cmds oracle
  (r.1, r.2 ++ if cmds.length > 0 then [HostCall.clear_asset_commands] else [])

/-- One frame of the render loop restricted to the module boundary
(main.cpp lines 241-296): `update_game`, then the asset phase.
`cmds` is the slice `get_asset_commands` returns for this frame. -/
def frameTrace (tm : TextureManager) (cmds : List AssetCommand)
    (oracle : String → GlOracle) : TextureManager × List HostCall :=
  let r := frameAssetPhase tm cmds oracle
  (r.1, HostCall.update_game :: r.2)

/-- Runs consecutive frames, threading the texture manager and
concatenating the boundary-call traces. -/
def runFrames (tm : TextureManager) (frames : List (List AssetCommand))
    (oracle : String → GlOracle) : TextureManager × List HostCall :=
  match frames with
  | [] => (tm, [])
  | cmds :: rest =>
      let r := frameTrace tm cmds oracle
      let r2 := runFrames r.1 rest oracle
      (r2.1, r.2 ++ r2.2)

/-- Projects a boundary call to its notify payload, if it is one. -/
def notifyProj : HostCall → Option (Nat × Nat)
  | .notify_asset_loaded rid aid => some (rid, aid)
  | _ => none

/-! ## Theorems -/

/-- C1: if the vtable's version field differs from the host's
compiled-in `MIYABI_ABI_VERSION` — in particular whenever the major
component differs from the expected major — the host startup exits
with error code -1 and invokes no entry point of the table. -/
theorem startup_rejects_abi_mismatch (v : Nat) (rest : StartupOutcome)
    (h : v ≠ MIYABI_ABI_VERSION ∨ abi_major v ≠ MIYABI_ABI_VERSION_MAJOR) :
    (hostStartup v rest).exit_code = some (-1) ∧ (hostStartup v rest).vtable_calls = [] := by
  have hv : v ≠ MIYABI_ABI_VERSION := by
    rcases h with h | h
    · exact h
    · intro hv
      apply h
      rw [hv]
      decide
  simp [hostStartup, hv]

/-- Witness for `startup_rejects_abi_mismatch` at the encoded version
2.0.0 (major 2 against expected major 1), with a success-path
continuation that would have called `create_game`. -/
theorem startup_rejects_abi_mismatch_witness :
    (hostStartup (MIYABI_ABI_VERSION_ENCODE 2 0 0)
        ⟨none, [VTableEntry.create_game]⟩).exit_code = some (-1) ∧
    (hostStartup (MIYABI_ABI_VERSION_ENCODE 2 0 0)
        ⟨none, [VTableEntry.create_game]⟩).vtable_calls = [] :=
  startup_rejects_abi_mismatch (MIYABI_ABI_VERSION_ENCODE 2 0 0)
    ⟨none, [VTableEntry.create_game]⟩ (Or.inr (by decide))

/-- C3: the `mouse_clicked` flag is a one-shot edge: whenever a
`processInput` call reports `mouse_clicked = true`, the next
`processInput` call reports `mouse_clicked = false` whatever the mouse
button does on that next frame (held down included). -/
theorem mouse_clicked_is_one_shot (g : Bool) (b1 b2 : MouseButton)
    (h : (processInputMouse g b1).mouse_clicked = true) :
    (processInputMouse (processInputMouse g b1).g_mouse_released b2).mouse_clicked = false := by
  cases b1 <;> cases b2 <;> cases g <;> simp_all [processInputMouse]

/-- Witness for `mouse_clicked_is_one_shot`: a release after a press
reports the click, and the next frame with the button held down
(`GLFW_PRESS`) reports no click. -/
theorem mouse_clicked_is_one_shot_witness :
    (processInputMouse false MouseButton.release).mouse_clicked = true ∧
    (processInputMouse (processInputMouse false MouseButton.release).g_mouse_released
        MouseButton.press).mouse_clicked = false :=
  ⟨by decide, mouse_clicked_is_one_shot false .release .press (by decide)⟩

/-- Request-free call sequences on the fullscreen channel never change
the stored request value. -/
theorem runFsOps_requested_eq (s : FullscreenState) (ops : List FsOp)
    (h : ∀ op ∈ ops, ∀ w, op ≠ FsOp.request w) :
    (runFsOps s ops).g_requested_fullscreen = s.g_requested_fullscreen := by
  induction ops generalizing s with
  | nil => rfl
  | cons op rest ih =>
      cases op with
      | request w => exact absurd rfl (h _ (List.mem_cons_self _ _) w)
      | consume =>
          rw [runFsOps, ih _ fun o ho w => h o (List.mem_cons_of_mem _ ho) w]
          rfl
      | query =>
          rw [runFsOps, ih _ fun o ho w => h o (List.mem_cons_of_mem _ ho) w]
          rfl

/-- Request-free call sequences on the fullscreen channel keep a
cleared pending flag cleared. -/
theorem runFsOps_pending_false (s : FullscreenState) (ops : List FsOp)
    (hp : s.g_pending_fullscreen = false)
    (h : ∀ op ∈ ops, ∀ w, op ≠ FsOp.request w) :
    (runFsOps s ops).g_pending_fullscreen = false := by
  induction ops generalizing s with
  | nil => exact hp
  | cons op rest ih =>
      cases op with
      | request w => exact absurd rfl (h _ (List.mem_cons_self _ _) w)
      | consume =>
          exact ih _ rfl fun o ho w => h o (List.mem_cons_of_mem _ ho) w
      | query =>
          exact ih _ hp fun o ho w => h o (List.mem_cons_of_mem _ ho) w

/-- C9: `consume_pending_fullscreen_request` is destructive — after a
consume, `has_pending_fullscreen_request` stays false across any
request-free call sequence until the next `request_fullscreen`; a
consume after `request_fullscreen v` (with only request-free calls in
between) returns `v`; and `request_fullscreen v` makes
`has_pending_fullscreen_request` true. -/
theorem fullscreen_request_consume_protocol (s : FullscreenState) (v : Bool)
    (ops : List FsOp) (h : ∀ op ∈ ops, ∀ w, op ≠ FsOp.request w) :
    has_pending_fullscreen_request
        (runFsOps (consume_pending_fullscreen_request s).2 ops) = false ∧
    (consume_pending_fullscreen_request (runFsOps (request_fullscreen v s) ops)).1 = v ∧
    has_pending_fullscreen_request (request_fullscreen v s) = true := by
  refine ⟨runFsOps_pending_false _ _ rfl h, ?_, rfl⟩
  show (runFsOps (request_fullscreen v s) ops).g_requested_fullscreen = v
  rw [runFsOps_requested_eq _ _ h]
  rfl

/-- Witness for `fullscreen_request_consume_protocol`: a pending
request is consumed, a further consume and a query keep the flag
cleared, and the consumed value matches the request. -/
theorem fullscreen_request_consume_protocol_witness :
    (∀ op ∈ [FsOp.consume, FsOp.query], ∀ w, op ≠ FsOp.request w) ∧
    (has_pending_fullscreen_request
        (runFsOps (consume_pending_fullscreen_request ⟨true, false⟩).2
          [FsOp.consume, FsOp.query]) = false ∧
     (consume_pending_fullscreen_request
        (runFsOps (request_fullscreen true ⟨true, false⟩)
          [FsOp.consume, FsOp.query])).1 = true ∧
     has_pending_fullscreen_request (request_fullscreen true ⟨true, false⟩) = true) :=
  ⟨by decide,
   fullscreen_request_consume_protocol ⟨true, false⟩ true [FsOp.consume, FsOp.query] (by decide)⟩

/-- The event buffer contents produced by a single step from an empty
buffer: the contact listener applied to this step's contacts. -/
def stepEvents (contacts : List (Nat × Nat)) : List CollisionEvent :=
  contacts.foldl (fun es c => beginContact es c.1 c.2) []

/-- Stepping never changes whether the world exists. -/
theorem step_m_world (pm : PhysicsManager) (c : List (Nat × Nat))
    (f : Nat → Vec2 → Vec2) : (pm.step c f).m_world = pm.m_world := by
  unfold PhysicsManager.step worldStep
  split <;> rfl

/-- Stepping never changes the id counter. -/
theorem step_m_next (pm : PhysicsManager) (c : List (Nat × Nat))
    (f : Nat → Vec2 → Vec2) : (pm.step c f).m_next_body_id = pm.m_next_body_id := by
  unfold PhysicsManager.step worldStep
  split <;> rfl

/-- Every event the contact listener leaves in the buffer either was
there before the step or comes from one of this step's contacts. -/
theorem mem_foldl_beginContact (contacts : List (Nat × Nat))
    (es : List CollisionEvent) (e : CollisionEvent)
    (h : e ∈ contacts.foldl (fun es c => beginContact es c.1 c.2) es) :
    e ∈ es ∨ (e.body_a, e.body_b) ∈ contacts := by
  induction contacts generalizing es with
  | nil => exact Or.inl h
  | cons c cs ih =>
      rcases ih _ h with h1 | h1
      · simp only [beginContact] at h1
        split at h1
        · rcases List.mem_append.1 h1 with h2 | h2
          · exact Or.inl h2
          · right
            have he : e = { body_a := c.1, body_b := c.2 } := by
              simpa using h2
            rw [he]
            exact List.mem_cons_self _ _
        · exact Or.inl h1
      · exact Or.inr (List.mem_cons_of_mem _ h1)

/-- C4: on an initialized world, `step` clears the buffer before the
simulation advances, so the events readable after a step are exactly
the listener's output for that step's contacts — each referencing one
of this step's contact pairs — and a further step replaces them with
the next step's output, independent of what was in the buffer. -/
theorem step_reports_only_current_step_events (pm : PhysicsManager)
    (c1 c2 : List (Nat × Nat)) (f1 f2 : Nat → Vec2 → Vec2)
    (h : pm.m_world = true) :
    (pm.step c1 f1).m_collision_events = stepEvents c1 ∧
    (∀ e ∈ (pm.step c1 f1).m_collision_events, (e.body_a, e.body_b) ∈ c1) ∧
    ((pm.step c1 f1).step c2 f2).m_collision_events = stepEvents c2 := by
  have hstep : ∀ (q : PhysicsManager) (c : List (Nat × Nat)) (f : Nat → Vec2 → Vec2),
      q.m_world = true → (q.step c f).m_collision_events = stepEvents c := by
    intro q c f hq
    unfold PhysicsManager.step worldStep stepEvents
    rw [hq]
    rfl
  have h1 := hstep pm c1 f1 h
  have h2 : (pm.step c1 f1).m_world = true := by rw [step_m_world]; exact h
  refine ⟨h1, ?_, hstep _ c2 f2 h2⟩
  intro e he
  rw [h1] at he
  rcases mem_foldl_beginContact c1 [] e he with h3 | h3
  · exact absurd h3 (List.not_mem_nil e)
  · exact h3

/-- Witness for `step_reports_only_current_step_events` on a fresh
initialized world: a step with contacts (1,2) and (0,3) leaves exactly
the listener output of those contacts in the buffer. -/
theorem step_reports_only_current_step_events_witness :
    PhysicsManager.new.init.m_world = true ∧
    (PhysicsManager.new.init.step [(1, 2), (0, 3)] (fun _ p => p)).m_collision_events
      = stepEvents [(1, 2), (0, 3)] :=
  ⟨rfl,
   (step_reports_only_current_step_events PhysicsManager.new.init
     [(1, 2), (0, 3)] [] (fun _ p => p) (fun _ p => p) rfl).1⟩

/-- A collision event passes the listener's guard: both ids non-zero. -/
def eventNonzero (e : CollisionEvent) : Bool :=
  e.body_a != 0 && e.body_b != 0

/-- The contact listener preserves the all-ids-non-zero property of
the buffer across any contact batch. -/
theorem all_foldl_beginContact (contacts : List (Nat × Nat))
    (es : List CollisionEvent) (h : es.all eventNonzero = true) :
    ((contacts.foldl (fun es c => beginContact es c.1 c.2) es).all eventNonzero) = true := by
  induction contacts generalizing es with
  | nil => exact h
  | cons c cs ih =>
      apply ih
      simp only [beginContact]
      split
      · rename_i hc
        rw [List.all_append, h, Bool.true_and]
        simpa [eventNonzero] using hc
      · exact h

/-- Every registry call preserves the all-ids-non-zero property of the
event buffer. -/
theorem physStep_preserves_nonzero (pm : PhysicsManager) (op : PhysOp)
    (h : pm.m_collision_events.all eventNonzero = true) :
    ((physStep pm op).m_collision_events.all eventNonzero) = true := by
  cases op with
  | init => exact h
  | step c f =>
      show ((pm.step c f).m_collision_events.all eventNonzero) = true
      unfold PhysicsManager.step
      split
      · exact h
      · unfold worldStep
        exact all_foldl_beginContact c [] rfl
  | create_dynamic_box x y w d =>
      show (((pm.create_dynamic_box x y w d).2).m_collision_events.all eventNonzero) = true
      unfold PhysicsManager.create_dynamic_box
      split <;> exact h
  | create_static_box x y w d =>
      show (((pm.create_static_box x y w d).2).m_collision_events.all eventNonzero) = true
      unfold PhysicsManager.create_static_box
      split <;> exact h

/-- C6: in every state the registry reaches from its initial state,
all buffered collision events carry two non-zero body ids; and the
contact listener drops a contact whose either side carries the zero
(untagged) user-data id instead of reporting it. -/
theorem collision_events_nonzero (ops : List PhysOp) (es : List CollisionEvent)
    (a b : Nat) :
    ((runPhysOps PhysicsManager.new ops).m_collision_events.all eventNonzero) = true ∧
    beginContact es a 0 = es ∧ beginContact es 0 b = es := by
  refine ⟨?_, by simp [beginContact], by simp [beginContact]⟩
  have main : ∀ (l : List PhysOp) (pm : PhysicsManager),
      pm.m_collision_events.all eventNonzero = true →
      ((runPhysOps pm l).m_collision_events.all eventNonzero) = true := by
    intro l
    induction l with
    | nil => intro pm h; exact h
    | cons op rest ih => intro pm h; exact ih _ (physStep_preserves_nonzero pm op h)
  exact main ops PhysicsManager.new rfl

/-- On an initialized manager, `create_dynamic_box` returns the
current id counter, appends the tagged body and advances the counter
with the `uint64_t` wrap. -/
theorem create_dynamic_box_initialized (pm : PhysicsManager) (x y w d : Rat)
    (h : pm.m_world = true) :
    pm.create_dynamic_box x y w d =
      (pm.m_next_body_id,
       { pm with
          m_bodies := pm.m_bodies ++
            [(pm.m_next_body_id,
              { user_data_pointer := pm.m_next_body_id, position := { x := x, y := y } })],
          m_next_body_id := (pm.m_next_body_id + 1) % 2 ^ 64 }) := by
  simp [PhysicsManager.create_dynamic_box, h]

/-- On an initialized manager, `create_static_box` returns the current
id counter, appends the tagged body and advances the counter with the
`uint64_t` wrap. -/
theorem create_static_box_initialized (pm : PhysicsManager) (x y w d : Rat)
    (h : pm.m_world = true) :
    pm.create_static_box x y w d =
      (pm.m_next_body_id,
       { pm with
          m_bodies := pm.m_bodies ++
            [(pm.m_next_body_id,
              { user_data_pointer := pm.m_next_body_id, position := { x := x, y := y } })],
          m_next_body_id := (pm.m_next_body_id + 1) % 2 ^ 64 }) := by
  simp [PhysicsManager.create_static_box, h]

/-- On an initialized manager whose `uint64_t` id counter does not
wrap within the sequence (counter plus create count at most 2^64), the
ids returned by a call sequence are the consecutive integers from the
current counter, one per create. -/
theorem createdIds_eq_range' (ops : List PhysOp) (pm : PhysicsManager)
    (h : pm.m_world = true)
    (hn : pm.m_next_body_id + (createOps ops).length ≤ 2 ^ 64) :
    createdIds pm ops = List.range' pm.m_next_body_id (createOps ops).length := by
  induction ops generalizing pm with
  | nil => rfl
  | cons op rest ih =>
      cases op with
      | init =>
          have hr := ih pm.init rfl (by simpa [createOps, PhysicsManager.init] using hn)
          simpa [createdIds, createOps, physStep, PhysicsManager.init] using hr
      | step c f =>
          have hw : (pm.step c f).m_world = true := by rw [step_m_world]; exact h
          have hr := ih _ hw (by rw [step_m_next]; simpa [createOps] using hn)
          rw [step_m_next] at hr
          simpa [createdIds, createOps, physStep] using hr
      | create_dynamic_box x y w d =>
          have hc := create_dynamic_box_initialized pm x y w d h
          have hn' : pm.m_next_body_id + ((createOps rest).length + 1) ≤ 2 ^ 64 := by
            simpa [createOps] using hn
          have hr := ih (pm.create_dynamic_box x y w d).2 (by rw [hc]; exact h)
            (by
              rw [hc]
              show (pm.m_next_body_id + 1) % 2 ^ 64 + (createOps rest).length ≤ 2 ^ 64
              omega)
          rw [hc] at hr
          show (pm.create_dynamic_box x y w d).1
              :: createdIds (pm.create_dynamic_box x y w d).2 rest = _
          rw [hc, hr]
          by_cases hlt : pm.m_next_body_id + 1 < 2 ^ 64
          · rw [Nat.mod_eq_of_lt hlt]
            simp [createOps, List.range'_succ]
          · have hlen0 : (createOps rest).length = 0 := by omega
            simp [createOps, hlen0, List.range'_succ]
      | create_static_box x y w d =>
          have hc := create_static_box_initialized pm x y w d h
          have hn' : pm.m_next_body_id + ((createOps rest).length + 1) ≤ 2 ^ 64 := by
            simpa [createOps] using hn
          have hr := ih (pm.create_static_box x y w d).2 (by rw [hc]; exact h)
            (by
              rw [hc]
              show (pm.m_next_body_id + 1) % 2 ^ 64 + (createOps rest).length ≤ 2 ^ 64
              omega)
          rw [hc] at hr
          show (pm.create_static_box x y w d).1
              :: createdIds (pm.create_static_box x y w d).2 rest = _
          rw [hc, hr]
          by_cases hlt : pm.m_next_body_id + 1 < 2 ^ 64
          · rw [Nat.mod_eq_of_lt hlt]
            simp [createOps, List.range'_succ]
          · have hlen0 : (createOps rest).length = 0 := by omega
            simp [createOps, hlen0, List.range'_succ]

/-- C5 (amended): on a manager whose world has been initialized, a
call sequence with fewer than 2^64 create calls (so the `uint64_t` id
counter never wraps back to 0) returns exactly the consecutive ids
from 1 (one per create, in order), hence strictly increasing, starting
at 1, and never 0. -/
theorem create_ids_strictly_increasing_from_one (ops : List PhysOp)
    (hlen : (createOps ops).length < 2 ^ 64) :
    createdIds PhysicsManager.new.init ops = List.range' 1 (createOps ops).length ∧
    List.Chain' (· < ·) (createdIds PhysicsManager.new.init ops) ∧
    0 ∉ createdIds PhysicsManager.new.init ops := by
  have h1 := createdIds_eq_range' ops PhysicsManager.new.init rfl
    (by show 1 + (createOps ops).length ≤ 2 ^ 64; omega)
  refine ⟨h1, ?_, ?_⟩
  · rw [h1]
    exact (List.pairwise_lt_range' 1 (createOps ops).length).chain'
  · rw [h1]
    show (0 : Nat) ∉ List.range' 1 (createOps ops).length
    simp [List.mem_range'_1]

/-- Witness for `create_ids_strictly_increasing_from_one`: one dynamic
and one static box created after init receive ids 1 and 2. -/
theorem create_ids_strictly_increasing_from_one_witness :
    ((createOps [PhysOp.create_dynamic_box 0 10 1 1,
        PhysOp.create_static_box 0 0 10 1]).length < 2 ^ 64) ∧
    createdIds PhysicsManager.new.init
        [PhysOp.create_dynamic_box 0 10 1 1, PhysOp.create_static_box 0 0 10 1]
      = List.range' 1 (createOps [PhysOp.create_dynamic_box 0 10 1 1,
          PhysOp.create_static_box 0 0 10 1]).length :=
  ⟨by decide,
   (create_ids_strictly_increasing_from_one
      [PhysOp.create_dynamic_box 0 10 1 1, PhysOp.create_static_box 0 0 10 1]
      (by decide)).1⟩

/-- C5 counterexample: a create call on a `PhysicsManager` whose world
was never initialized returns the reserved invalid id 0, so the ids a
sequence of create calls returns are not always non-zero. -/
theorem create_before_init_returns_zero :
    createdIds PhysicsManager.new [PhysOp.create_dynamic_box 0 0 1 1] = [0] := rfl

/-- Appending to an association list does not change a lookup that
already succeeds. -/
theorem lookup_append_some {α β : Type} [BEq α] {l1 l2 : List (α × β)} {a : α}
    {b : β} (h : l1.lookup a = some b) : (l1 ++ l2).lookup a = some b := by
  induction l1 with
  | nil => simp at h
  | cons p t ih =>
      obtain ⟨k, v⟩ := p
      cases hak : (a == k) with
      | true =>
          rw [List.lookup_cons, hak] at h
          rw [List.cons_append, List.lookup_cons, hak]
          exact h
      | false =>
          rw [List.lookup_cons, hak] at h
          rw [List.cons_append, List.lookup_cons, hak]
          exact ih h

/-- A lookup that fails on the first list of an append continues into
the second list. -/
theorem lookup_append_none {α β : Type} [BEq α] {l1 : List (α × β)}
    (l2 : List (α × β)) {a : α} (h : l1.lookup a = none) :
    (l1 ++ l2).lookup a = l2.lookup a := by
  induction l1 with
  | nil => rfl
  | cons p t ih =>
      obtain ⟨k, v⟩ := p
      cases hak : (a == k) with
      | true => rw [List.lookup_cons, hak] at h; exact absurd h (by simp)
      | false =>
          rw [List.lookup_cons, hak] at h
          rw [List.cons_append, List.lookup_cons, hak]
          exact ih h

/-- Mapping a key-preserving function over an association list maps
the lookup result. -/
theorem lookup_map_value {α β γ : Type} [BEq α] [LawfulBEq α]
    (l : List (α × β)) (f : α → β → γ) (a : α) :
    ((l.map fun p => (p.1, f p.1 p.2)).lookup a) = (l.lookup a).map (f a) := by
  induction l with
  | nil => rfl
  | cons p t ih =>
      obtain ⟨k, v⟩ := p
      cases hak : (a == k) with
      | true =>
          have : a = k := eq_of_beq hak
          subst this
          rw [List.map_cons, List.lookup_cons, List.lookup_cons]
          simp
      | false =>
          rw [List.map_cons, List.lookup_cons, List.lookup_cons, hak]
          exact ih

/-- An id never handed out by any create call of an op sequence stays
absent from the body map. -/
theorem runPhysOps_lookup_none (ops : List PhysOp) (pm : PhysicsManager)
    (id : Nat) (hid : id ∉ createdIds pm ops)
    (h : pm.m_bodies.lookup id = none) :
    ((runPhysOps pm ops).m_bodies.lookup id) = none := by
  induction ops generalizing pm with
  | nil => exact h
  | cons op rest ih =>
      cases op with
      | init =>
          exact ih pm.init (by simpa [createdIds, physStep] using hid) h
      | step c f =>
          apply ih (pm.step c f) (by simpa [createdIds, physStep] using hid)
          show ((pm.step c f).m_bodies.lookup id) = none
          unfold PhysicsManager.step
          split
          · exact h
          · show (worldStep { pm with m_collision_events := [] } c f).m_bodies.lookup id = none
            simp only [worldStep]
            rw [lookup_map_value pm.m_bodies
              (fun k v => ({ user_data_pointer := v.user_data_pointer,
                             position := f k v.position } : B2Body)) id, h]
            rfl
      | create_dynamic_box x y w d =>
          rw [show createdIds pm (.create_dynamic_box x y w d :: rest)
              = (pm.create_dynamic_box x y w d).1
                :: createdIds (pm.create_dynamic_box x y w d).2 rest from rfl] at hid
          have hid1 : id ≠ (pm.create_dynamic_box x y w d).1 :=
            fun he => hid (he ▸ List.mem_cons_self _ _)
          have hid2 : id ∉ createdIds (pm.create_dynamic_box x y w d).2 rest :=
            fun he => hid (List.mem_cons_of_mem _ he)
          apply ih _ hid2
          by_cases hw : pm.m_world = true
          · rw [create_dynamic_box_initialized pm x y w d hw] at hid1 ⊢
            show (pm.m_bodies ++ _).lookup id = none
            rw [lookup_append_none _ h, List.lookup_cons]
            have : (id == pm.m_next_body_id) = false := by
              simpa using hid1
            rw [this]
            rfl
          · have hw' : pm.m_world = false := by
              cases hval : pm.m_world
              · rfl
              · exact absurd hval hw
            show ((pm.create_dynamic_box x y w d).2.m_bodies.lookup id) = none
            simp only [PhysicsManager.create_dynamic_box, hw']
            exact h
      | create_static_box x y w d =>
          rw [show createdIds pm (.create_static_box x y w d :: rest)
              = (pm.create_static_box x y w d).1
                :: createdIds (pm.create_static_box x y w d).2 rest from rfl] at hid
          have hid1 : id ≠ (pm.create_static_box x y w d).1 :=
            fun he => hid (he ▸ List.mem_cons_self _ _)
          have hid2 : id ∉ createdIds (pm.create_static_box x y w d).2 rest :=
            fun he => hid (List.mem_cons_of_mem _ he)
          apply ih _ hid2
          by_cases hw : pm.m_world = true
          · rw [create_static_box_initialized pm x y w d hw] at hid1 ⊢
            show (pm.m_bodies ++ _).lookup id = none
            rw [lookup_append_none _ h, List.lookup_cons]
            have : (id == pm.m_next_body_id) = false := by
              simpa using hid1
            rw [this]
            rfl
          · have hw' : pm.m_world = false := by
              cases hval : pm.m_world
              · rfl
              · exact absurd hval hw
            show ((pm.create_static_box x y w d).2.m_bodies.lookup id) = none
            simp only [PhysicsManager.create_static_box, hw']
            exact h

/-- C7: `get_body_position` returns the stored body's current position
when the id maps to a created body, and the sentinel `(-1, -1)` when
the id was never handed out by a create call (the lookup is total:
there is no exception path). -/
theorem get_body_position_known_or_sentinel (ops : List PhysOp) (id : Nat) :
    (∀ body, (runPhysOps PhysicsManager.new ops).m_bodies.lookup id = some body →
       (runPhysOps PhysicsManager.new ops).get_body_position id = body.position) ∧
    (id ∉ createdIds PhysicsManager.new ops →
       (runPhysOps PhysicsManager.new ops).get_body_position id = { x := -1, y := -1 }) := by
  constructor
  · intro body hb
    unfold PhysicsManager.get_body_position
    rw [hb]
  · intro hid
    unfold PhysicsManager.get_body_position
    rw [runPhysOps_lookup_none ops PhysicsManager.new id hid rfl]

/-- Witness for `get_body_position_known_or_sentinel`: after init and
one dynamic box created at (2, 3), id 1 reports position (2, 3) and
the never-created id 5 reports the sentinel (-1, -1). -/
theorem get_body_position_known_or_sentinel_witness :
    ((runPhysOps PhysicsManager.new
        [PhysOp.init, PhysOp.create_dynamic_box 2 3 1 1]).get_body_position 1
      = { x := 2, y := 3 }) ∧
    ((runPhysOps PhysicsManager.new
        [PhysOp.init, PhysOp.create_dynamic_box 2 3 1 1]).get_body_position 5
      = { x := -1, y := -1 }) :=
  ⟨(get_body_position_known_or_sentinel
      [PhysOp.init, PhysOp.create_dynamic_box 2 3 1 1] 1).1
      { user_data_pointer := 1, position := { x := 2, y := 3 } } (by rfl),
   (get_body_position_known_or_sentinel
      [PhysOp.init, PhysOp.create_dynamic_box 2 3 1 1] 5).2 (by decide)⟩

/-- The group arguments of the `ma_sound_init_from_file` calls in an
effect trace, in order. -/
def bgmInitGroups (effects : List AudioEffect) : List (Option MixGroup) :=
  effects.filterMap fun e =>
    match e with
    | .sound_init_from_file _ g => some g
    | _ => none

/-- C8: with the audio-ready flag down, `play_sound` and `play_bgm`
return immediately — no state change and no call into the engine;
with the engine ready but the SE group not initialized, `play_sound`
routes through the engine default (`NULL` group); with the engine
ready but the BGM group not initialized, the single
`ma_sound_init_from_file` call of `play_bgm` routes through the engine
default (`NULL` group). -/
theorem audio_guard_noop_and_default_fallback (path : String) (looped : Bool)
    (init_ok start_ok bg se bs : Bool) :
    play_sound ⟨false, bg, se, bs⟩ path = (⟨false, bg, se, bs⟩, []) ∧
    play_bgm ⟨false, bg, se, bs⟩ path looped init_ok start_ok = (⟨false, bg, se, bs⟩, []) ∧
    play_sound ⟨true, bg, false, bs⟩ path
      = (⟨true, bg, false, bs⟩, [.engine_play_sound path none]) ∧
    bgmInitGroups (play_bgm ⟨true, false, se, bs⟩ path looped init_ok start_ok).2 = [none] := by
  refine ⟨rfl, rfl, rfl, ?_⟩
  cases bs <;> cases init_ok <;> cases start_ok <;>
    simp [play_bgm, bgmInitGroups]

/-- One call into the texture manager, with its GL oracle results. -/
inductive TexOp
  | load (path : String) (gl : GlOracle)
  | reload (path : String) (gl : GlOracle)
  deriving DecidableEq, Repr

/-- Applies one texture-manager call to its state. -/
def texStep (tm : TextureManager) : TexOp → TextureManager
  | .load path gl => (tm.load_texture path gl).2
  | .reload path gl => (tm.reload_texture path gl).2

/-- Runs a sequence of texture-manager calls. -/
def runTexOps (tm : TextureManager) : List TexOp → TextureManager
  | [] => tm
  | op :: rest => runTexOps (texStep tm op) rest

/-- An established path-to-id mapping survives any later `load_texture`
call (the map is only ever appended to, behind paths not yet mapped). -/
theorem load_texture_preserves_lookup (tm : TextureManager) (q : String)
    (gl : GlOracle) (p : String) (t : Nat)
    (h : tm.m_path_to_texture_id.lookup p = some t) :
    ((tm.load_texture q gl).2.m_path_to_texture_id.lookup p) = some t := by
  unfold TextureManager.load_texture
  cases hq : tm.m_path_to_texture_id.lookup q with
  | some e => exact h
  | none =>
      by_cases hg : gl.gen_gl_id = 0
      · simp only [hg]
        exact h
      · simp only [hg]
        by_cases hu : gl.upload_ok = true
        · simp only [hu]
          show ((tm.m_path_to_texture_id ++ _).lookup p) = some t
          exact lookup_append_some h
        · have hu' : gl.upload_ok = false := by
            cases hval : gl.upload_ok
            · rfl
            · exact absurd hval hu
          simp only [hu']
          exact h

/-- An established path-to-id mapping survives any later texture call. -/
theorem texStep_preserves_lookup (tm : TextureManager) (op : TexOp)
    (p : String) (t : Nat) (h : tm.m_path_to_texture_id.lookup p = some t) :
    ((texStep tm op).m_path_to_texture_id.lookup p) = some t := by
  cases op with
  | load q gl => exact load_texture_preserves_lookup tm q gl p t h
  | reload q gl =>
      show ((tm.reload_texture q gl).2.m_path_to_texture_id.lookup p) = some t
      unfold TextureManager.reload_texture
      split
      · exact load_texture_preserves_lookup tm q gl p t h
      · split
        · exact load_texture_preserves_lookup tm q gl p t h
        · split <;> exact h

/-- An established path-to-id mapping survives any sequence of texture
calls. -/
theorem runTexOps_preserves_lookup (ops : List TexOp) (tm : TextureManager)
    (p : String) (t : Nat) (h : tm.m_path_to_texture_id.lookup p = some t) :
    ((runTexOps tm ops).m_path_to_texture_id.lookup p) = some t := by
  induction ops generalizing tm with
  | nil => exact h
  | cons op rest ih => exact ih _ (texStep_preserves_lookup tm op p t h)

/-- A `load_texture` call that returns a non-zero id leaves that id
recorded for its path. -/
theorem load_texture_records_path (tm : TextureManager) (p : String)
    (gl : GlOracle) (t : Nat) (h : (tm.load_texture p gl).1 = t) (ht : t ≠ 0) :
    ((tm.load_texture p gl).2.m_path_to_texture_id.lookup p) = some t := by
  cases hp : tm.m_path_to_texture_id.lookup p with
  | some e =>
      have he : (tm.load_texture p gl).1 = e ∧ (tm.load_texture p gl).2 = tm := by
        simp [TextureManager.load_texture, hp]
      rw [he.2, hp, ← h, he.1]
  | none =>
      by_cases hg : gl.gen_gl_id = 0
      · have h0 : (tm.load_texture p gl).1 = 0 := by
          simp [TextureManager.load_texture, hp, hg]
        rw [h0] at h
        exact absurd h.symm ht
      · by_cases hu : gl.upload_ok = true
        · have h2 : (tm.load_texture p gl).2.m_path_to_texture_id
              = tm.m_path_to_texture_id ++ [(p, tm.m_next_texture_id)] ∧
              (tm.load_texture p gl).1 = tm.m_next_texture_id := by
            simp [TextureManager.load_texture, hp, hg, hu]
          rw [h2.1, lookup_append_none _ hp, List.lookup_cons]
          simp [← h, h2.2]
        · have hu' : gl.upload_ok = false := by
            cases hval : gl.upload_ok
            · rfl
            · exact absurd hval hu
          have h0 : (tm.load_texture p gl).1 = 0 := by
            simp [TextureManager.load_texture, hp, hg, hu']
          rw [h0] at h
          exact absurd h.symm ht

/-- C10: `load_texture` is idempotent per path — once a call for `p`
has returned a non-zero id `t`, any later `load_texture` call for `p`
(after arbitrary interleaved load/reload calls) returns the same `t`
and leaves the manager unchanged: no new texture is allocated and no
id is consumed; and a load of an unmapped path that fails (GL id 0,
file unreadable or unsupported format) returns 0 and leaves the id
maps and the next-id counter unchanged. -/
theorem load_texture_idempotent_per_path (tm : TextureManager) (p : String)
    (gl : GlOracle) (ops : List TexOp) (gl2 : GlOracle) (t : Nat)
    (h : (tm.load_texture p gl).1 = t) (ht : t ≠ 0) :
    (TextureManager.load_texture (runTexOps (tm.load_texture p gl).2 ops) p gl2
        = (t, runTexOps (tm.load_texture p gl).2 ops)) ∧
    (∀ tm2 : TextureManager, ∀ gl3 : GlOracle,
       tm2.m_path_to_texture_id.lookup p = none →
       gl3.gen_gl_id = 0 ∨ gl3.upload_ok = false →
       tm2.load_texture p gl3 = (0, tm2)) := by
  constructor
  · have h1 := load_texture_records_path tm p gl t h ht
    have h2 := runTexOps_preserves_lookup ops _ p t h1
    have h3 : ∀ tmx : TextureManager, tmx.m_path_to_texture_id.lookup p = some t →
        tmx.load_texture p gl2 = (t, tmx) := by
      intro tmx hx
      unfold TextureManager.load_texture
      rw [hx]
    exact h3 _ h2
  · intro tm2 gl3 hnone hfail
    unfold TextureManager.load_texture
    rw [hnone]
    rcases hfail with hg | hu
    · simp [hg]
    · simp [hu]

/-- Witness for `load_texture_idempotent_per_path`: a fresh manager
loads "a" successfully as id 1; after loading "b" and reloading "a",
loading "a" again returns 1 with the manager unchanged; and the
failure part applied to a fresh manager with a failed upload
returns 0 and changes nothing. -/
theorem load_texture_idempotent_per_path_witness :
    ((TextureManager.new.load_texture "a" ⟨7, true⟩).1 = 1 ∧ (1 : Nat) ≠ 0) ∧
    (TextureManager.load_texture
        (runTexOps (TextureManager.new.load_texture "a" ⟨7, true⟩).2
          [TexOp.load "b" ⟨8, true⟩, TexOp.reload "a" ⟨9, true⟩]) "a" ⟨10, true⟩
      = (1, runTexOps (TextureManager.new.load_texture "a" ⟨7, true⟩).2
          [TexOp.load "b" ⟨8, true⟩, TexOp.reload "a" ⟨9, true⟩])) ∧
    TextureManager.new.load_texture "c" ⟨11, false⟩ = (0, TextureManager.new) :=
  ⟨⟨by decide, by decide⟩,
   (load_texture_idempotent_per_path TextureManager.new "a" ⟨7, true⟩
      [TexOp.load "b" ⟨8, true⟩, TexOp.reload "a" ⟨9, true⟩] ⟨10, true⟩ 1
      (by decide) (by decide)).1,
   (load_texture_idempotent_per_path TextureManager.new "a" ⟨7, true⟩
      [] ⟨10, true⟩ 1 (by decide) (by decide)).2 TextureManager.new ⟨11, false⟩
      (by decide) (Or.inr (by decide))⟩

/-- Whether a command kind falls into the drain loop's `default:` case. -/
def AssetCommandType.isUnknown : AssetCommandType → Bool
  | .UnknownKind _ => true
  | _ => false

/-- A command of unrecognized kind is dispatched to the failure id 0. -/
theorem dispatch_unknown_id_zero (tm : TextureManager) (c : AssetCommand)
    (gl : GlOracle) (h : c.type_.isUnknown = true) :
    (dispatchAssetCommand tm c gl).1 = 0 := by
  rcases c with ⟨ty, rid, path⟩
  cases ty with
  | LoadTexture => simp [AssetCommandType.isUnknown] at h
  | ReloadTexture => simp [AssetCommandType.isUnknown] at h
  | UnknownKind tag => rfl

/-- Log lines project to no notify payload. -/
theorem filterMap_notify_log (b : Bool) (r : Nat) :
    ((if b then [HostCall.log_unknown_asset_command r] else []).filterMap notifyProj) = [] := by
  cases b <;> rfl

/-- The drain loop emits exactly one notify per drained command, in
order, carrying that command's request id, with id 0 for a command of
unrecognized kind. -/
theorem processAssetCommands_notifies (cmds : List AssetCommand)
    (tm : TextureManager) (oracle : String → GlOracle) :
    List.Forall₂
      (fun c r => r.1 = c.request_id ∧ (c.type_.isUnknown = true → r.2 = 0))
      cmds (((processAssetCommands tm cmds oracle).2).filterMap notifyProj) := by
  induction cmds generalizing tm with
  | nil => exact List.Forall₂.nil
  | cons c rest ih =>
      simp only [processAssetCommands, List.filterMap_append, filterMap_notify_log,
        List.filterMap_cons, notifyProj, List.nil_append]
      exact List.Forall₂.cons
        ⟨rfl, fun hu => dispatch_unknown_id_zero tm c (oracle c.path) hu⟩ (ih _)

/-- The drain loop itself never calls `update_game`. -/
theorem processAssetCommands_no_update (cmds : List AssetCommand)
    (tm : TextureManager) (oracle : String → GlOracle) :
    HostCall.update_game ∉ (processAssetCommands tm cmds oracle).2 := by
  induction cmds generalizing tm with
  | nil => simp [processAssetCommands]
  | cons c rest ih =>
      intro hmem
      rcases List.mem_append.1 hmem with h1 | h1
      · cases hb : (dispatchAssetCommand tm c (oracle c.path)).2.2 <;>
          simp [hb] at h1
      · rcases List.mem_cons.1 h1 with h2 | h2
        · exact absurd h2 (by simp)
        · exact ih _ h2

/-- Every drained command of unrecognized kind produces a warning log
line carrying its request id. -/
theorem processAssetCommands_logs_unknown (cmds : List AssetCommand)
    (tm : TextureManager) (oracle : String → GlOracle) :
    ∀ c ∈ cmds, c.type_.isUnknown = true →
      HostCall.log_unknown_asset_command c.request_id
        ∈ (processAssetCommands tm cmds oracle).2 := by
  induction cmds generalizing tm with
  | nil => intro c hc; exact absurd hc (List.not_mem_nil c)
  | cons c0 rest ih =>
      intro c hc hu
      rcases List.mem_cons.1 hc with h1 | h1
      · subst h1
        have hlog : (dispatchAssetCommand tm c (oracle c.path)).2.2 = true := by
          rcases c with ⟨ty, rid, path⟩
          cases ty <;> simp_all [AssetCommandType.isUnknown, dispatchAssetCommand]
        show _ ∈ (processAssetCommands tm (c :: rest) oracle).2
        simp [processAssetCommands, hlog]
      · have hr := ih (dispatchAssetCommand tm c0 (oracle c0.path)).2.1 c h1 hu
        exact List.mem_append_right _ (List.mem_cons_of_mem _ hr)

/-- C2: one frame's asset phase issues exactly one
`notify_asset_loaded` per drained command — `cmds.length` notifies,
in order, each carrying its command's `request_id`, with the failure
id 0 for a command of unrecognized kind, which is also logged — the
phase contains no `update_game` call, and the trace of consecutive
frames places the whole phase between this frame's `update_game` and
the next frame's. -/
theorem frame_notifies_every_asset_command (tm : TextureManager)
    (cmds : List AssetCommand) (oracle : String → GlOracle)
    (rest : List (List AssetCommand)) :
    List.Forall₂
      (fun c r => r.1 = c.request_id ∧ (c.type_.isUnknown = true → r.2 = 0))
      cmds (((frameAssetPhase tm cmds oracle).2).filterMap notifyProj) ∧
    ((((frameAssetPhase tm cmds oracle).2).filterMap notifyProj).length = cmds.length) ∧
    HostCall.update_game ∉ (frameAssetPhase tm cmds oracle).2 ∧
    (∀ c ∈ cmds, c.type_.isUnknown = true →
       HostCall.log_unknown_asset_command c.request_id
         ∈ (frameAssetPhase tm cmds oracle).2) ∧
    (runFrames tm (cmds :: rest) oracle).2
      = HostCall.update_game :: ((frameAssetPhase tm cmds oracle).2
          ++ (runFrames (frameAssetPhase tm cmds oracle).1 rest oracle).2) := by
  have hclear : ((if cmds.length > 0 then [HostCall.clear_asset_commands] else []).filterMap
      notifyProj) = [] := by
    split <;> rfl
  have hfilter : (((frameAssetPhase tm cmds oracle).2).filterMap notifyProj)
      = (((processAssetCommands tm cmds oracle).2).filterMap notifyProj) := by
    show (((processAssetCommands tm cmds oracle).2 ++ _).filterMap notifyProj) = _
    rw [List.filterMap_append, hclear, List.append_nil]
  have hfa := processAssetCommands_notifies cmds tm oracle
  refine ⟨hfilter ▸ hfa, ?_, ?_, ?_, rfl⟩
  · rw [hfilter]
    exact hfa.length_eq.symm
  · intro hmem
    rcases List.mem_append.1 hmem with h1 | h1
    · exact processAssetCommands_no_update cmds tm oracle h1
    · revert h1
      split <;> simp
  · intro c hc hu
    exact List.mem_append_left _ (processAssetCommands_logs_unknown cmds tm oracle c hc hu)

/-- Witness for `frame_notifies_every_asset_command` on a two-command
frame (one load, one unrecognized kind): the notify payloads are
exactly the two request ids, the unknown one with failure id 0. -/
theorem frame_notifies_every_asset_command_witness :
    ((frameAssetPhase TextureManager.new
        [{ type_ := .LoadTexture, request_id := 9, path := "a" },
         { type_ := .UnknownKind 7, request_id := 42, path := "b" }]
        (fun _ => ⟨3, true⟩)).2.filterMap notifyProj) = [(9, 1), (42, 0)] ∧
    (List.Forall₂
      (fun (c : AssetCommand) (r : Nat × Nat) =>
        r.1 = c.request_id ∧ (c.type_.isUnknown = true → r.2 = 0))
      [{ type_ := .LoadTexture, request_id := 9, path := "a" },
       { type_ := .UnknownKind 7, request_id := 42, path := "b" }]
      [(9, 1), (42, 0)]) := by
  have h := (frame_notifies_every_asset_command TextureManager.new
      [{ type_ := .LoadTexture, request_id := 9, path := "a" },
       { type_ := .UnknownKind 7, request_id := 42, path := "b" }]
      (fun _ => ⟨3, true⟩) []).1
  have he : ((frameAssetPhase TextureManager.new
      [{ type_ := .LoadTexture, request_id := 9, path := "a" },
       { type_ := .UnknownKind 7, request_id := 42, path := "b" }]
      (fun _ => ⟨3, true⟩)).2.filterMap notifyProj) = [(9, 1), (42, 0)] := by decide
  exact ⟨he, he ▸ h⟩

end Miyabi
